import Mathlib

/-!
Verification of the orchestration-loop client
(`no_llm_framework/client/agent.py`): a shallow embedding of the
`Agent` class (directory loading, selection parsing, dispatching and the
three-round orchestration loop) together with proofs of the spec's
testable properties.  External collaborators (the LLM stream, the agent
RPC stream, the card resolver and the template renderer) are supplied as
oracle functions; everything the Python module itself computes is
embedded as executable Lean definitions.
-/

namespace A2ASpec

/-- Values produced by `json.loads`.  Numbers keep their source lexeme:
no claim inspects numeric magnitude, only truthiness, which is decided
from the lexeme. -/
inductive Json where
  | null
  | bool (b : Bool)
  | num (lexeme : String)
  | str (s : String)
  | arr (elems : List Json)
  | obj (members : List (String × Json))

/-- Whitespace skipped by the JSON decoder (space, tab, newline, return). -/
def skipWs : List Char → List Char
  | [] => []
  | c :: cs => if c == ' ' || c == '\t' || c == '\n' || c == '\r' then skipWs cs else c :: cs

def hexVal (c : Char) : Option Nat :=
  if '0' ≤ c ∧ c ≤ '9' then some (c.toNat - '0'.toNat)
  else if 'a' ≤ c ∧ c ≤ 'f' then some (c.toNat - 'a'.toNat + 10)
  else if 'A' ≤ c ∧ c ≤ 'F' then some (c.toNat - 'A'.toNat + 10)
  else none

/-- Body of a JSON string literal, after the opening quote. -/
def parseStringBody : Nat → List Char → List Char → Except String (String × List Char)
  | 0, _, _ => .error "string: out of fuel"
  | _ + 1, _, [] => .error "Unterminated string"
  | fuel + 1, acc, c :: cs =>
    if c == '"' then .ok (String.mk acc.reverse, cs)
    else if c == '\\' then
      match cs with
      | [] => .error "Unterminated string"
      | e :: cs2 =>
        if e == '"' then parseStringBody fuel ('"' :: acc) cs2
        else if e == '\\' then parseStringBody fuel ('\\' :: acc) cs2
        else if e == '/' then parseStringBody fuel ('/' :: acc) cs2
        else if e == 'b' then parseStringBody fuel ('\x08' :: acc) cs2
        else if e == 'f' then parseStringBody fuel ('\x0c' :: acc) cs2
        else if e == 'n' then parseStringBody fuel ('\n' :: acc) cs2
        else if e == 'r' then parseStringBody fuel ('\r' :: acc) cs2
        else if e == 't' then parseStringBody fuel ('\t' :: acc) cs2
        else if e == 'u' then
          match cs2 with
          | h1 :: h2 :: h3 :: h4 :: cs6 =>
            match hexVal h1, hexVal h2, hexVal h3, hexVal h4 with
            | some a, some b, some c2, some d =>
              parseStringBody fuel (Char.ofNat (((a * 16 + b) * 16 + c2) * 16 + d) :: acc) cs6
            | _, _, _, _ => .error "Invalid hex escape"
          | _ => .error "Invalid hex escape"
        else .error "Invalid escape"
    else if c.toNat < 32 then .error "Invalid control character"
    else parseStringBody fuel (c :: acc) cs

def spanDigits : List Char → List Char × List Char
  | [] => ([], [])
  | c :: cs =>
    if '0' ≤ c ∧ c ≤ '9' then
      let p := spanDigits cs
      (c :: p.1, p.2)
    else ([], c :: cs)

/-- The JSON number token, following the grammar of the decoder's number
regular expression: optional minus, integer part with no leading zero,
optional fraction, optional exponent.  A trailing malformed fraction or
exponent is left unconsumed, as the regular expression would. -/
def parseNumber (cs : List Char) : Except String (String × List Char) :=
  let p0 : List Char × List Char :=
    match cs with
    | '-' :: rest => (['-'], rest)
    | _ => ([], cs)
  match p0.2 with
  | [] => .error "Expecting value"
  | c :: rest =>
    if ¬('0' ≤ c ∧ c ≤ '9') then .error "Expecting value"
    else
      let ip : List Char × List Char :=
        if c == '0' then ([c], rest) else spanDigits p0.2
      let fp : List Char × List Char :=
        match ip.2 with
        | '.' :: d :: ds =>
          if '0' ≤ d ∧ d ≤ '9' then
            let q := spanDigits (d :: ds)
            ('.' :: q.1, q.2)
          else ([], ip.2)
        | _ => ([], ip.2)
      let ep : List Char × List Char :=
        match fp.2 with
        | e :: es =>
          if e == 'e' || e == 'E' then
            match es with
            | s :: d :: ds =>
              if (s == '+' || s == '-') ∧ '0' ≤ d ∧ d ≤ '9' then
                let q := spanDigits (d :: ds)
                (e :: s :: q.1, q.2)
              else if '0' ≤ s ∧ s ≤ '9' then
                let q := spanDigits (s :: d :: ds)
                (e :: q.1, q.2)
              else ([], fp.2)
            | [s] =>
              if '0' ≤ s ∧ s ≤ '9' then ([e, s], [])
              else ([], fp.2)
            | [] => ([], fp.2)
          else ([], fp.2)
        | [] => ([], fp.2)
      .ok (String.mk (p0.1 ++ ip.1 ++ fp.1 ++ ep.1), ep.2)

def stripPfx (pfx cs : List Char) : Option (List Char) :=
  if List.isPrefixOf pfx cs then some (cs.drop pfx.length) else none

mutual

/-- One JSON value, leading whitespace allowed; mirrors the decoder's
`scan_once`.  Fuel decreases on every mutual call; `loads` supplies more
fuel than any input can consume. -/
def parseVal : Nat → List Char → Except String (Json × List Char)
  | 0, _ => .error "out of fuel"
  | fuel + 1, cs0 =>
    match skipWs cs0 with
    | [] => .error "Expecting value"
    | c :: rest =>
      if c == '"' then
        match parseStringBody (rest.length + 1) [] rest with
        | .ok (s, r) => .ok (.str s, r)
        | .error e => .error e
      else if c == '\x7b' then
        match skipWs rest with
        | '\x7d' :: r => .ok (.obj [], r)
        | cs1 => parseObjRest fuel cs1 []
      else if c == '[' then
        match skipWs rest with
        | ']' :: r => .ok (.arr [], r)
        | cs1 => parseArrRest fuel cs1 []
      else
        match stripPfx ['t', 'r', 'u', 'e'] (c :: rest) with
        | some r => .ok (.bool true, r)
        | none =>
        match stripPfx ['f', 'a', 'l', 's', 'e'] (c :: rest) with
        | some r => .ok (.bool false, r)
        | none =>
        match stripPfx ['n', 'u', 'l', 'l'] (c :: rest) with
        | some r => .ok (.null, r)
        | none =>
        match stripPfx ['N', 'a', 'N'] (c :: rest) with
        | some r => .ok (.num "NaN", r)
        | none =>
        match stripPfx ['I', 'n', 'f', 'i', 'n', 'i', 't', 'y'] (c :: rest) with
        | some r => .ok (.num "Infinity", r)
        | none =>
        match stripPfx ['-', 'I', 'n', 'f', 'i', 'n', 'i', 't', 'y'] (c :: rest) with
        | some r => .ok (.num "-Infinity", r)
        | none =>
          match parseNumber (c :: rest) with
          | .ok (lx, r) => .ok (.num lx, r)
          | .error e => .error e

/-- Elements of a non-empty array, after the opening bracket. -/
def parseArrRest : Nat → List Char → List Json → Except String (Json × List Char)
  | 0, _, _ => .error "out of fuel"
  | fuel + 1, cs, acc =>
    match parseVal fuel cs with
    | .error e => .error e
    | .ok (v, r1) =>
      match skipWs r1 with
      | ',' :: r2 => parseArrRest fuel r2 (acc ++ [v])
      | ']' :: r2 => .ok (.arr (acc ++ [v]), r2)
      | _ => .error "Expecting delimiter"

/-- Members of a non-empty object, after the opening brace. -/
def parseObjRest : Nat → List Char → List (String × Json) → Except String (Json × List Char)
  | 0, _, _ => .error "out of fuel"
  | fuel + 1, cs, acc =>
    match skipWs cs with
    | '"' :: r =>
      match parseStringBody (r.length + 1) [] r with
      | .error e => .error e
      | .ok (k, r1) =>
        match skipWs r1 with
        | ':' :: r2 =>
          match parseVal fuel r2 with
          | .error e => .error e
          | .ok (v, r3) =>
            match skipWs r3 with
            | ',' :: r4 => parseObjRest fuel r4 (acc ++ [(k, v)])
            | '\x7d' :: r4 => .ok (.obj (acc ++ [(k, v)]), r4)
            | _ => .error "Expecting delimiter"
        | _ => .error "Expecting colon"
    | _ => .error "Expecting property name"

end

/-- `json.loads`: one value, then only trailing whitespace. -/
def loads (s : String) : Except String Json :=
  match parseVal (2 * s.length + 8) s.data with
  | .error e => .error e
  | .ok (j, rest) => if (skipWs rest).isEmpty then .ok j else .error "Extra data"

/-- Index of the first occurrence of `needle` in `hay`, if any. -/
def findSub (needle : List Char) : List Char → Option Nat
  | [] => if needle.isEmpty then some 0 else none
  | c :: cs =>
    if List.isPrefixOf needle (c :: cs) then some 0
    else (findSub needle cs).map (· + 1)

/-- Group 1 of the first match of a pattern `open (.*?) close` under
DOTALL semantics: the region between the first occurrence of the opening
delimiter and the earliest occurrence of the closing delimiter after it.
(If the first opening delimiter has no closing one after it, no later
opening occurrence can either, so the whole search fails.) -/
def delimGroup (opener closer : List Char) (s : String) : Option String :=
  match findSub opener s.data with
  | none => none
  | some p =>
    let rest := s.data.drop (p + opener.length)
    match findSub closer rest with
    | none => none
    | some q => some (String.mk (rest.take q))

/-- The regex of `Agent.extract_agents`: group 1 of the first DOTALL
match of three backticks, `json`, newline, lazy body, newline, three
backticks. -/
def fencedGroup (response : String) : Option String :=
  delimGroup ['`', '`', '`', 'j', 's', 'o', 'n', '\n'] ['\n', '`', '`', '`'] response

/-- The regex applied to an agent's concatenated response in
`Agent.stream`: inner text of the first `<Answer>`…`</Answer>` region. -/
def answerRegion (resp : String) : Option String :=
  delimGroup "<Answer>".data "</Answer>".data resp

/-- The characters Python `str.strip()` removes: the code points for
which `Py_UNICODE_ISSPACE` holds — `\x09`-`\x0d`, `\x1c`-`\x20`,
next line, no-break space, and the Unicode space and line/paragraph
separators. -/
def isPyWs (c : Char) : Bool :=
  let n := c.toNat
  decide ((0x09 ≤ n ∧ n ≤ 0x0d) ∨ (0x1c ≤ n ∧ n ≤ 0x20) ∨ n = 0x85 ∨ n = 0xa0 ∨
    n = 0x1680 ∨ (0x2000 ≤ n ∧ n ≤ 0x200a) ∨ n = 0x2028 ∨ n = 0x2029 ∨
    n = 0x202f ∨ n = 0x205f ∨ n = 0x3000)

def pyStrip (s : String) : String :=
  String.mk (((s.data.dropWhile isPyWs).reverse.dropWhile isPyWs).reverse)

/-- `answer = match.group(1).strip() if match else agent_response`
(agent.py line 193). -/
def answerOf (agent_response : String) : String :=
  match answerRegion agent_response with
  | some inner => pyStrip inner
  | none => agent_response

/-- Truthiness of a JSON number from its lexeme: zero iff every digit of
the mantissa is `0` (the grammar forbids other zero spellings). -/
def numTruthy (l : String) : Bool :=
  l == "NaN" || l == "Infinity" || l == "-Infinity" ||
    (l.data.takeWhile (fun c => !(c == 'e' || c == 'E'))).any
      (fun c => decide ('1' ≤ c ∧ c ≤ '9'))

/-- Python truthiness of a decoded JSON value (`if agents:`). -/
def Json.truthy : Json → Bool
  | .null => false
  | .bool b => b
  | .num l => numTruthy l
  | .str s => !s.isEmpty
  | .arr xs => !xs.isEmpty
  | .obj kvs => !kvs.isEmpty

mutual

/-- Python `repr` of a decoded JSON value (reachable only for the
display of dictionary keys; string escaping inside `repr` is not
modelled as no string produced here needs it). -/
def pyRepr : Json → String
  | .null => "None"
  | .bool true => "True"
  | .bool false => "False"
  | .num l => l
  | .str s => "'" ++ s ++ "'"
  | .arr xs => "[" ++ pyReprElems xs ++ "]"
  | .obj kvs => "\x7b" ++ pyReprMembers kvs ++ "\x7d"

def pyReprElems : List Json → String
  | [] => ""
  | [x] => pyRepr x
  | x :: xs => pyRepr x ++ ", " ++ pyReprElems xs

def pyReprMembers : List (String × Json) → String
  | [] => ""
  | [(k, v)] => "'" ++ k ++ "': " ++ pyRepr v
  | (k, v) :: kvs => "'" ++ k ++ "': " ++ pyRepr v ++ ", " ++ pyReprMembers kvs

end

/-- Python `str()`, as used by the f-string `<Agent name="...">`. -/
def pyStr : Json → String
  | .str s => s
  | j => pyRepr j

inductive PyErr where
  | jsonDecodeError (msg : String)
  | keyError (key : String)
  | typeError (msg : String)
  | dirError (msg : String)
  | providerError (msg : String)
  | rpcError (msg : String)
deriving DecidableEq

/-- Lookup in a dict built from decoded JSON members: the last binding
of a repeated key wins, as in the decoder's repeated assignment. -/
def objLookup (k : String) : List (String × Json) → Option Json
  | [] => none
  | (k2, v) :: rest =>
    match objLookup k rest with
    | some v2 => some v2
    | none => if k2 == k then some v else none

/-- Python subscript `j[k]` for a string key `k`. -/
def pySubscript (j : Json) (k : String) : Except PyErr Json :=
  match j with
  | .obj kvs =>
    match objLookup k kvs with
    | some v => .ok v
    | none => .error (.keyError k)
  | .str _ => .error (.typeError "string indices must be integers")
  | .arr _ => .error (.typeError "list indices must be integers or slices, not str")
  | .null => .error (.typeError "NoneType is not subscriptable")
  | .bool _ => .error (.typeError "bool is not subscriptable")
  | .num _ => .error (.typeError "number is not subscriptable")

/-- Keys of a dict built from decoded JSON members, in first-occurrence
order, without repetitions. -/
def dedupKeys : List (String × Json) → List String
  | [] => []
  | (k, _) :: rest => k :: (dedupKeys rest).filter (fun k2 => k2 != k)

/-- Python `for x in j:`. -/
def pyIter : Json → Except PyErr (List Json)
  | .arr xs => .ok xs
  | .obj kvs => .ok ((dedupKeys kvs).map Json.str)
  | .str s => .ok (s.data.map (fun c => Json.str (String.mk [c])))
  | .null => .error (.typeError "NoneType is not iterable")
  | .bool _ => .error (.typeError "bool is not iterable")
  | .num _ => .error (.typeError "number is not iterable")

/-- The | fields of an agent card that the client reads: its name (the
registry key) and its endpoint. -/
structure AgentCard where
  name : String
  url : String
deriving DecidableEq

/-- Lookup in the agents registry dict; the last card of a repeated
name wins, as in the dict comprehension of `get_agents`. -/
def dictLookup (kvs : List (String × AgentCard)) (k : String) : Option AgentCard :=
  match kvs with
  | [] => none
  | (k2, v) :: rest =>
    match dictLookup rest k with
    | some v2 => some v2
    | none => if k2 == k then some v else none

/-- Python subscript `agents_registry[key]` where `key` is any decoded
JSON value (agent.py line 184). -/
def pyDictGet (kvs : List (String × AgentCard)) (key : Json) : Except PyErr AgentCard :=
  match key with
  | .str s =>
    match dictLookup kvs s with
    | some v => .ok v
    | none => .error (.keyError s)
  | .arr _ => .error (.typeError "unhashable type: list")
  | .obj _ => .error (.typeError "unhashable type: dict")
  | k => .error (.keyError (pyStr k))

/-- `asyncio.gather` with fail-fast semantics: every awaitable is
launched, the first failure fails the join. -/
def gatherAll {ε α : Type} : List (Except ε α) → Except ε (List α)
  | [] => .ok []
  | .error e :: _ => .error e
  | .ok a :: rest =>
    match gatherAll rest with
    | .ok xs => .ok (a :: xs)
    | .error e => .error e

/-- `Agent.get_agents` (agent.py lines 74-87).  `resolve` is the card
resolver collaborator, `render` the `agents.jinja` template.  The first
component lists the endpoints actually contacted. -/
def get_agents (agent_urls : Option (List String))
    (resolve : String → Except String AgentCard)
    (render : List AgentCard → String) :
    List String × Except String (List (String × AgentCard) × String) :=
  match agent_urls with
  | none => ([], .ok ([], ""))
  | some [] => ([], .ok ([], ""))
  | some urls =>
    (urls,
      match gatherAll (urls.map resolve) with
      | .error e => .error e
      | .ok cards => .ok (cards.map (fun c => (c.name, c)), render cards))

/-- One part of an A2A message; only a text part has a `text`
attribute. -/
inductive A2APart where
  | text (s : String)
  | file (uri : String)
  | data (payload : Json)

structure A2AMessage where
  parts : List A2APart

/-- The `result` of a streaming success response. -/
inductive A2AResult where
  | statusUpdate (message : Option A2AMessage)
  | artifactUpdate
  | task
  | message (m : A2AMessage)

/-- One event on `client.send_message_streaming`: `chunk.root`. -/
inductive A2AResponse where
  | success (result : A2AResult)
  | errorResponse (message : String)

/-- The event filter of `Agent.send_message_to_an_agent` (agent.py
lines 150-159): from each event, yield the text of the first part of a
successful status update's message when that part is a text part;
everything else yields nothing. -/
def send_message_to_an_agent : List A2AResponse → List String
  | [] => []
  | chunk :: rest =>
    (match chunk with
     | .success (.statusUpdate (some msg)) =>
       match msg.parts with
       | .text s :: _ => [s]
       | _ => []
     | _ => []) ++ send_message_to_an_agent rest

/-- `Agent.extract_agents` (agent.py lines 117-127): decode the first
fenced json block with `json.loads` — a decode failure raises — and
return the decoded value; with no fenced block, return the empty
list. -/
def extract_agents (response : String) : Except PyErr Json :=
  match fencedGroup response with
  | some content =>
    match loads content with
    | .ok j => .ok j
    | .error e => .error (.jsonDecodeError e)
  | none => .ok (.arr [])

/-- A finite, non-restartable stream from an external collaborator: the
items delivered, then either normal exhaustion or an exception raised
mid-stream after the last delivered item. -/
structure StreamOut (α : Type) where
  items : List α
  fail : Option String

/-- The external collaborators of one run, as pure oracles.  Streams are
indexed by round (and, for agent calls, by the position of the selection
within the round, the card and the forwarded prompt) so that every round
may observe different external behaviour. -/
structure Oracle where
  resolve : Nat → String → Except String AgentCard
  render : List AgentCard → String
  decideStream : Nat → StreamOut String
  agentEvents : Nat → Nat → AgentCard → Json → StreamOut A2AResponse

/-- One entry appended to `agent_answers` (agent.py lines 194-200). -/
structure AnswerRec where
  name : Json
  prompt : Json
  answer : String

/-- The dispatch of one parsed selection (agent.py lines 182-200 body):
subscript the selection for its name, resolve the name in the registry,
yield the begin marker, subscript for the prompt, stream the agent call,
yield the end marker, and build the answer record.  Returns the chunks
yielded and either the record or the exception that aborted the
dispatch. -/
def dispatchOne (orc : Oracle) (r i : Nat)
    (registry : List (String × AgentCard)) (agent : Json) :
    List String × Except PyErr AnswerRec :=
  match pySubscript agent "name" with
  | .error e => ([], .error e)
  | .ok nameJ =>
    match pyDictGet registry nameJ with
    | .error e => ([], .error e)
    | .ok card =>
      let marker := "<Agent name=\"" ++ pyStr nameJ ++ "\">\n"
      match pySubscript agent "prompt" with
      | .error e => ([marker], .error e)
      | .ok promptJ =>
        let ev := orc.agentEvents r i card promptJ
        let frags := send_message_to_an_agent ev.items
        match ev.fail with
        | some e => (marker :: frags, .error (.rpcError e))
        | none =>
          (marker :: (frags ++ ["</Agent>\n"]),
           .ok ⟨nameJ, promptJ, answerOf (String.join frags)⟩)

/-- The `for agent in agents:` loop of one round: selections dispatched
strictly sequentially in list order; an exception aborts the rest of the
round.  Returns the chunks yielded, the answer records appended (in
dispatch order), and the aborting exception if any. -/
def dispatchAll (orc : Oracle) (r : Nat) (registry : List (String × AgentCard)) :
    List Json → Nat → List String × List AnswerRec × Option PyErr
  | [], _ => ([], [], none)
  | agent :: rest, i =>
    match dispatchOne orc r i registry agent with
    | (out, .error e) => (out, [], some e)
    | (out, .ok rec1) =>
      let tail := dispatchAll orc r registry rest (i + 1)
      (out ++ tail.1, rec1 :: tail.2.1, tail.2.2)

inductive RoundStatus where
  | next
  | stop
  | failed (e : PyErr)

/-- Observable outcome of one iteration of `for _ in range(3)`. -/
structure RoundOut where
  out : List String
  recs : List AnswerRec
  status : RoundStatus

/-- One round of `Agent.stream` (agent.py lines 172-202): refresh the
directory, consume the decision stream (every fragment yielded onward),
extract the selections, and either dispatch them all or return. -/
def runRound (orc : Oracle) (urls : Option (List String)) (r : Nat) : RoundOut :=
  match (get_agents urls (orc.resolve r) orc.render).2 with
  | .error e => ⟨[], [], .failed (.dirError e)⟩
  | .ok (registry, _agent_prompt) =>
    let dec := orc.decideStream r
    match dec.fail with
    | some e => ⟨dec.items, [], .failed (.providerError e)⟩
    | none =>
      match extract_agents (String.join dec.items) with
      | .error e => ⟨dec.items, [], .failed e⟩
      | .ok agents =>
        if agents.truthy then
          match pyIter agents with
          | .error e => ⟨dec.items, [], .failed e⟩
          | .ok sels =>
            let d := dispatchAll orc r registry sels 0
            match d.2.2 with
            | none => ⟨dec.items ++ d.1, d.2.1, .next⟩
            | some e => ⟨dec.items ++ d.1, d.2.1, .failed e⟩
        else ⟨dec.items, [], .stop⟩

/-- Result of a whole run of `Agent.stream`, as its consumer observes
it: the chunks yielded in order, the final `agent_answers`, the
exception that ended the generator if any, and the number of loop
iterations entered. -/
structure RunResult where
  output : List String
  answers : List AnswerRec
  err : Option PyErr
  rounds : Nat

/-- `for _ in range(n)` over rounds starting at index `r` with the
accumulated `agent_answers`. -/
def runRounds (orc : Oracle) (urls : Option (List String)) :
    Nat → Nat → List AnswerRec → RunResult
  | 0, _, answers => ⟨[], answers, none, 0⟩
  | n + 1, r, answers =>
    let ro := runRound orc urls r
    match ro.status with
    | .stop => ⟨ro.out, answers ++ ro.recs, none, 1⟩
    | .failed e => ⟨ro.out, answers ++ ro.recs, some e, 1⟩
    | .next =>
      let rest := runRounds orc urls n (r + 1) (answers ++ ro.recs)
      ⟨ro.out ++ rest.output, rest.answers, rest.err, rest.rounds + 1⟩

/-- `Agent.stream` (agent.py lines 161-202): at most `range(3)` rounds
starting from an empty answer list. -/
def stream (orc : Oracle) (urls : Option (List String)) : RunResult :=
  runRounds orc urls 3 0 []

/-- Two oracles indistinguishable on every round index below `n`. -/
def Oracle.agreeBelow (o1 o2 : Oracle) (n : Nat) : Prop :=
  o1.render = o2.render ∧
    ∀ r, r < n →
      o1.resolve r = o2.resolve r ∧
      o1.decideStream r = o2.decideStream r ∧
      o1.agentEvents r = o2.agentEvents r

/-! ### Concrete instances used by witnesses and counterexamples -/

def cardEcho : AgentCard := ⟨"echo", "http://localhost:9999/"⟩

/-- A run in which round 0 selects `echo` once and round 1 selects
nothing; the agent's streamed response carries an answer region with
surrounding whitespace. -/
def oW : Oracle where
  resolve := fun _ _ => .ok cardEcho
  render := fun _ => "agents"
  decideStream := fun r =>
    if r == 0 then
      ⟨["pick: ", "```json\n[\x7b\"name\": \"echo\", \"prompt\": \"hi\"\x7d]\n```"], none⟩
    else ⟨["done"], none⟩
  agentEvents := fun _ _ _ _ =>
    ⟨[.success (.statusUpdate (some ⟨[.text "I say <Answer> hi there </Answer> ok"]⟩))], none⟩

/-- A run whose decision text selects an agent name absent from the
directory. -/
def oGhost : Oracle where
  resolve := fun _ _ => .ok cardEcho
  render := fun _ => "agents"
  decideStream := fun _ => ⟨["```json\n[\x7b\"name\": \"ghost\", \"prompt\": \"x\"\x7d]\n```"], none⟩
  agentEvents := fun _ _ _ _ => ⟨[], none⟩

/-- A run whose decision text has no fenced block at all. -/
def oPlain : Oracle where
  resolve := fun _ _ => .ok cardEcho
  render := fun _ => "agents"
  decideStream := fun _ => ⟨["just ", "text"], none⟩
  agentEvents := fun _ _ _ _ => ⟨[], none⟩

/-! ### Shared lemmas -/

/-- Contribution of a single event to the dispatcher's fragment
stream: one fragment exactly for a successful status update whose
message's first part is a text part, nothing otherwise. -/
theorem send_message_one (e : A2AResponse) :
    (∃ msg s ps, e = .success (.statusUpdate (some msg)) ∧ msg.parts = .text s :: ps ∧
        send_message_to_an_agent [e] = [s]) ∨
    ((¬ ∃ msg s ps, e = .success (.statusUpdate (some msg)) ∧ msg.parts = .text s :: ps) ∧
        send_message_to_an_agent [e] = []) := by
  cases e with
  | errorResponse m =>
    right
    exact ⟨(by rintro ⟨msg, s, ps, h, -⟩; cases h), rfl⟩
  | success res =>
    cases res with
    | artifactUpdate => right; exact ⟨(by rintro ⟨msg, s, ps, h, -⟩; cases h), rfl⟩
    | task => right; exact ⟨(by rintro ⟨msg, s, ps, h, -⟩; cases h), rfl⟩
    | message m => right; exact ⟨(by rintro ⟨msg, s, ps, h, -⟩; cases h), rfl⟩
    | statusUpdate m? =>
      cases m? with
      | none => right; exact ⟨(by rintro ⟨msg, s, ps, h, -⟩; cases h), rfl⟩
      | some msg =>
        obtain ⟨parts⟩ := msg
        cases parts with
        | nil =>
          right
          refine ⟨?_, rfl⟩
          rintro ⟨msg2, s, ps, h, hp⟩
          cases h
          simp at hp
        | cons p ps0 =>
          cases p with
          | text s =>
            left
            exact ⟨⟨.text s :: ps0⟩, s, ps0, rfl, rfl, rfl⟩
          | file u =>
            right
            refine ⟨?_, rfl⟩
            rintro ⟨msg2, s, ps, h, hp⟩
            cases h
            simp at hp
          | data d =>
            right
            refine ⟨?_, rfl⟩
            rintro ⟨msg2, s, ps, h, hp⟩
            cases h
            simp at hp

/-- `pyStrip` removes the same non-ASCII whitespace `str.strip()`
does (next line, no-break space, file separator, em space, ideographic
space). -/
theorem pyStrip_unicode_ws : pyStrip "\xa0\x1c\u2003 hi \u3000\x85" = "hi" := rfl

/-! ### Claims -/

/-- C5: for every call to `get_agents` with an empty endpoint list, it
returns an empty mapping and an empty prompt string, contacting zero
endpoints and raising no error. -/
theorem c5_empty_urls_no_network
    (resolve : String → Except String AgentCard) (render : List AgentCard → String) :
    get_agents (some []) resolve render = ([], .ok ([], "")) := rfl

theorem c5_witness :
    get_agents (some []) (fun _ => .ok cardEcho) (fun _ => "agents") = ([], .ok ([], "")) :=
  c5_empty_urls_no_network _ _

/-- C9: `get_agents` treats an absent endpoint list (`agent_urls =
None`) identically to an empty one: empty mapping, empty prompt, no
endpoint contacted, no error. -/
theorem c9_none_urls_like_empty
    (resolve : String → Except String AgentCard) (render : List AgentCard → String) :
    get_agents none resolve render = ([], .ok ([], "")) ∧
    get_agents none resolve render = get_agents (some []) resolve render :=
  ⟨rfl, rfl⟩

theorem c9_witness :
    get_agents none (fun _ => .ok cardEcho) (fun _ => "agents") = ([], .ok ([], "")) ∧
    get_agents none (fun _ => .ok cardEcho) (fun _ => "agents") =
      get_agents (some []) (fun _ => .ok cardEcho) (fun _ => "agents") :=
  c9_none_urls_like_empty _ _

/-- C10: each event on an agent's response stream yields at most one
fragment; precisely the text of the first part of a successful status
update's message when that part is a text part, and nothing in every
other case. -/
theorem c10_event_filter (e : A2AResponse) (rest : List A2AResponse) :
    send_message_to_an_agent (e :: rest) =
      send_message_to_an_agent [e] ++ send_message_to_an_agent rest ∧
    (send_message_to_an_agent [e]).length ≤ 1 ∧
    (∀ msg s ps, e = .success (.statusUpdate (some msg)) → msg.parts = .text s :: ps →
        send_message_to_an_agent [e] = [s]) ∧
    ((¬ ∃ msg s ps, e = .success (.statusUpdate (some msg)) ∧ msg.parts = .text s :: ps) →
        send_message_to_an_agent [e] = []) := by
  refine ⟨by simp [send_message_to_an_agent], ?_, ?_, ?_⟩
  · rcases send_message_one e with ⟨msg, s, ps, -, -, h⟩ | ⟨-, h⟩ <;> simp [h]
  · intro msg s ps he hp
    rcases send_message_one e with ⟨msg2, s2, ps2, he2, hp2, h⟩ | ⟨hno, -⟩
    · subst he
      simp only [A2AResponse.success.injEq, A2AResult.statusUpdate.injEq,
        Option.some.injEq] at he2
      subst he2
      rw [hp] at hp2
      simp only [List.cons.injEq, A2APart.text.injEq] at hp2
      rw [h, hp2.1]
    · exact absurd ⟨msg, s, ps, he, hp⟩ hno
  · intro hno
    rcases send_message_one e with ⟨msg, s, ps, he, hp, -⟩ | ⟨-, h⟩
    · exact absurd ⟨msg, s, ps, he, hp⟩ hno
    · exact h

theorem c10_witness :
    send_message_to_an_agent
        [.success (.statusUpdate (some ⟨[.text "frag", .file "f"]⟩)), .errorResponse "x"] =
      send_message_to_an_agent [.success (.statusUpdate (some ⟨[.text "frag", .file "f"]⟩))] ++
        send_message_to_an_agent [.errorResponse "x"] ∧
    (send_message_to_an_agent
        [.success (.statusUpdate (some ⟨[.text "frag", .file "f"]⟩))]).length ≤ 1 ∧
    (∀ msg s ps,
        A2AResponse.success (.statusUpdate (some ⟨[.text "frag", .file "f"]⟩)) =
          .success (.statusUpdate (some msg)) → msg.parts = .text s :: ps →
        send_message_to_an_agent [.success (.statusUpdate (some ⟨[.text "frag", .file "f"]⟩))] = [s]) ∧
    ((¬ ∃ msg s ps,
        A2AResponse.success (.statusUpdate (some ⟨[.text "frag", .file "f"]⟩)) =
          .success (.statusUpdate (some msg)) ∧ msg.parts = .text s :: ps) →
        send_message_to_an_agent [.success (.statusUpdate (some ⟨[.text "frag", .file "f"]⟩))] = []) :=
  c10_event_filter (.success (.statusUpdate (some ⟨[.text "frag", .file "f"]⟩))) [.errorResponse "x"]

/-- C7: a decision text with no fenced block parses to the empty
selection list, and such a round ends the loop normally right there:
no dispatch, no further round, no further output. -/
theorem c7_no_block_terminates (orc : Oracle) (urls : Option (List String))
    (registry : List (String × AgentCard)) (p : String)
    (r n : Nat) (answers : List AnswerRec)
    (hdir : (get_agents urls (orc.resolve r) orc.render).2 = .ok (registry, p))
    (hdec : (orc.decideStream r).fail = none)
    (hnb : fencedGroup (String.join (orc.decideStream r).items) = none) :
    extract_agents (String.join (orc.decideStream r).items) = .ok (.arr []) ∧
    runRounds orc urls (n + 1) r answers =
      ⟨(orc.decideStream r).items, answers, none, 1⟩ := by
  have hext : extract_agents (String.join (orc.decideStream r).items) = .ok (.arr []) := by
    unfold extract_agents
    rw [hnb]
  refine ⟨hext, ?_⟩
  have hro : runRound orc urls r = ⟨(orc.decideStream r).items, [], .stop⟩ := by
    simp only [runRound, hdir, hdec, hext, Json.truthy, List.isEmpty_nil, Bool.not_true,
      Bool.false_eq_true, if_false]
  simp only [runRounds, hro, List.append_nil]

theorem c7_witness :
    extract_agents (String.join (oPlain.decideStream 0).items) = .ok (.arr []) ∧
    runRounds oPlain (some ["u"]) 3 0 [] =
      ⟨(oPlain.decideStream 0).items, [], none, 1⟩ :=
  c7_no_block_terminates oPlain (some ["u"]) [("echo", cardEcho)] "agents" 0 2 [] rfl rfl rfl

/-- C8: a decision text whose first fenced block decodes to a list of N
objects yields exactly those N selections in source order; the parse
result depends only on that first fenced region, so at most one region
is decoded per decision. -/
theorem c8_selections_in_order (response c : String) (objs : List Json)
    (hf : fencedGroup response = some c)
    (hl : loads c = .ok (.arr objs)) :
    extract_agents response = .ok (.arr objs) ∧
    pyIter (.arr objs) = .ok objs ∧
    (∀ r2, fencedGroup r2 = fencedGroup response → extract_agents r2 = extract_agents response) := by
  have h1 : extract_agents response = .ok (.arr objs) := by
    simp only [extract_agents, hf, hl]
  refine ⟨h1, rfl, ?_⟩
  intro r2 h2
  simp only [extract_agents, h2, hf, hl]

theorem c8_witness :
    extract_agents "pre ```json\n[1, \"two\"]\n``` mid ```json\n[3]\n``` post" =
      .ok (.arr [.num "1", .str "two"]) ∧
    pyIter (.arr [.num "1", .str "two"]) = .ok [.num "1", .str "two"] ∧
    (∀ r2, fencedGroup r2 =
        fencedGroup "pre ```json\n[1, \"two\"]\n``` mid ```json\n[3]\n``` post" →
      extract_agents r2 =
        extract_agents "pre ```json\n[1, \"two\"]\n``` mid ```json\n[3]\n``` post") :=
  c8_selections_in_order "pre ```json\n[1, \"two\"]\n``` mid ```json\n[3]\n``` post"
    "[1, \"two\"]" [.num "1", .str "two"] rfl rfl

/-- C3 is false on the code: the recorded answer is the inner text of
the answer region with surrounding whitespace stripped, not the inner
text itself.  In the run of `oW` the agent's concatenated response is
`I say <Answer> hi there </Answer> ok`, whose region's inner text is
` hi there `, yet the recorded answer is `hi there`. -/
theorem c3_counterexample :
    String.join (send_message_to_an_agent
        (oW.agentEvents 0 0 cardEcho (.str "hi")).items) =
      "I say <Answer> hi there </Answer> ok" ∧
    answerRegion "I say <Answer> hi there </Answer> ok" = some " hi there " ∧
    (stream oW (some ["u"])).answers = [⟨.str "echo", .str "hi", "hi there"⟩] ∧
    ("hi there" : String) ≠ " hi there " :=
  ⟨rfl, rfl, rfl, by decide⟩

/-- C3 amended: every successfully dispatched selection records as its
answer `answerOf` of the concatenated response: the inner text of the
first answer region with leading and trailing whitespace stripped when
such a region exists, and the entire concatenated response verbatim when
none does. -/
theorem c3_amended_answer_extraction
    (orc : Oracle) (r i : Nat) (registry : List (String × AgentCard))
    (agent nameJ promptJ : Json) (card : AgentCard) (inner : String)
    (hn : pySubscript agent "name" = .ok nameJ)
    (hc : pyDictGet registry nameJ = .ok card)
    (hp : pySubscript agent "prompt" = .ok promptJ)
    (hok : (orc.agentEvents r i card promptJ).fail = none) :
    (dispatchOne orc r i registry agent).2 =
      .ok ⟨nameJ, promptJ,
        answerOf (String.join
          (send_message_to_an_agent (orc.agentEvents r i card promptJ).items))⟩ ∧
    (∀ resp, answerRegion resp = some inner → answerOf resp = pyStrip inner) ∧
    (∀ resp, answerRegion resp = none → answerOf resp = resp) := by
  refine ⟨?_, ?_, ?_⟩
  · simp only [dispatchOne, hn, hc, hp, hok]
  · intro resp hreg
    simp only [answerOf, hreg]
  · intro resp hreg
    simp only [answerOf, hreg]

theorem c3_amended_witness :
    (dispatchOne oW 0 0 [("echo", cardEcho)]
        (.obj [("name", .str "echo"), ("prompt", .str "hi")])).2 =
      .ok ⟨.str "echo", .str "hi",
        answerOf (String.join
          (send_message_to_an_agent (oW.agentEvents 0 0 cardEcho (.str "hi")).items))⟩ ∧
    (∀ resp, answerRegion resp = some " hi there " → answerOf resp = pyStrip " hi there ") ∧
    (∀ resp, answerRegion resp = none → answerOf resp = resp) :=
  c3_amended_answer_extraction oW 0 0 [("echo", cardEcho)]
    (.obj [("name", .str "echo"), ("prompt", .str "hi")]) (.str "echo") (.str "hi")
    cardEcho " hi there " rfl rfl rfl rfl

/-- C4: a parsed selection whose name is a string absent from the
round's registry aborts with a KeyError at the lookup: the selection
yields no output at all (the dispatch, including its begin marker, never
starts), the remaining selections of the round are not processed, and
the run ends after that round's decision output with the KeyError. -/
theorem c4_unknown_agent_aborts
    (orc : Oracle) (urls : Option (List String)) (registry : List (String × AgentCard))
    (p : String) (agents agent : Json) (rest : List Json) (s : String)
    (r i n : Nat) (answers : List AnswerRec)
    (hname : pySubscript agent "name" = .ok (.str s))
    (hmiss : dictLookup registry s = none)
    (hdir : (get_agents urls (orc.resolve r) orc.render).2 = .ok (registry, p))
    (hdec : (orc.decideStream r).fail = none)
    (hext : extract_agents (String.join (orc.decideStream r).items) = .ok agents)
    (htr : agents.truthy = true)
    (hit : pyIter agents = .ok (agent :: rest)) :
    dispatchAll orc r registry (agent :: rest) i = ([], [], some (.keyError s)) ∧
    runRounds orc urls (n + 1) r answers =
      ⟨(orc.decideStream r).items, answers, some (.keyError s), 1⟩ := by
  have hone : ∀ j, dispatchOne orc r j registry agent = ([], .error (.keyError s)) := by
    intro j
    simp only [dispatchOne, hname, pyDictGet, hmiss]
  have hda : ∀ j, dispatchAll orc r registry (agent :: rest) j = ([], [], some (.keyError s)) := by
    intro j
    simp only [dispatchAll, hone j]
  refine ⟨hda i, ?_⟩
  have hro : runRound orc urls r =
      ⟨(orc.decideStream r).items, [], .failed (.keyError s)⟩ := by
    simp only [runRound, hdir, hdec, hext, htr, if_true, hit, hda 0, List.append_nil]
  simp only [runRounds, hro, List.append_nil]

theorem c4_witness :
    dispatchAll oGhost 0 [("echo", cardEcho)]
        [.obj [("name", .str "ghost"), ("prompt", .str "x")]] 0 =
      ([], [], some (.keyError "ghost")) ∧
    runRounds oGhost (some ["u"]) 3 0 [] =
      ⟨(oGhost.decideStream 0).items, [], some (.keyError "ghost"), 1⟩ :=
  c4_unknown_agent_aborts oGhost (some ["u"]) [("echo", cardEcho)] "agents"
    (.arr [.obj [("name", .str "ghost"), ("prompt", .str "x")]])
    (.obj [("name", .str "ghost"), ("prompt", .str "x")]) [] "ghost" 0 0 2 []
    rfl rfl rfl rfl rfl rfl rfl

/-- C6: within a round the decision stream is fully consumed and emitted
before any dispatch output appears; selections are dispatched strictly
sequentially in list order, each contributing its output block before
the next selection starts; and the answer records extend the loop state
in that same dispatch order before the next round runs. -/
theorem c6_round_ordering
    (orc : Oracle) (urls : Option (List String)) (registry : List (String × AgentCard))
    (p : String) (agents a : Json) (sels rest : List Json)
    (o1 : List String) (rec1 : AnswerRec)
    (r i n : Nat) (answers : List AnswerRec)
    (hdir : (get_agents urls (orc.resolve r) orc.render).2 = .ok (registry, p))
    (hdec : (orc.decideStream r).fail = none)
    (hext : extract_agents (String.join (orc.decideStream r).items) = .ok agents)
    (htr : agents.truthy = true)
    (hit : pyIter agents = .ok sels)
    (hd1 : dispatchOne orc r i registry a = (o1, .ok rec1)) :
    (runRound orc urls r).out =
      (orc.decideStream r).items ++ (dispatchAll orc r registry sels 0).1 ∧
    dispatchAll orc r registry (a :: rest) i =
      (o1 ++ (dispatchAll orc r registry rest (i + 1)).1,
       rec1 :: (dispatchAll orc r registry rest (i + 1)).2.1,
       (dispatchAll orc r registry rest (i + 1)).2.2) ∧
    ((dispatchAll orc r registry sels 0).2.2 = none →
      runRounds orc urls (n + 1) r answers =
        ⟨(runRound orc urls r).out ++
           (runRounds orc urls n (r + 1)
             (answers ++ (dispatchAll orc r registry sels 0).2.1)).output,
         (runRounds orc urls n (r + 1)
           (answers ++ (dispatchAll orc r registry sels 0).2.1)).answers,
         (runRounds orc urls n (r + 1)
           (answers ++ (dispatchAll orc r registry sels 0).2.1)).err,
         (runRounds orc urls n (r + 1)
           (answers ++ (dispatchAll orc r registry sels 0).2.1)).rounds + 1⟩) := by
  refine ⟨?_, ?_, ?_⟩
  · cases h2 : (dispatchAll orc r registry sels 0).2.2 with
    | none => simp only [runRound, hdir, hdec, hext, htr, if_true, hit, h2]
    | some e => simp only [runRound, hdir, hdec, hext, htr, if_true, hit, h2]
  · simp only [dispatchAll, hd1]
  · intro h2
    have hro : runRound orc urls r =
        ⟨(orc.decideStream r).items ++ (dispatchAll orc r registry sels 0).1,
         (dispatchAll orc r registry sels 0).2.1, .next⟩ := by
      simp only [runRound, hdir, hdec, hext, htr, if_true, hit, h2]
    simp only [runRounds, hro]

theorem c6_witness :
    (runRound oW (some ["u"]) 0).out =
      (oW.decideStream 0).items ++
        (dispatchAll oW 0 [("echo", cardEcho)]
          [.obj [("name", .str "echo"), ("prompt", .str "hi")]] 0).1 ∧
    dispatchAll oW 0 [("echo", cardEcho)]
        [.obj [("name", .str "echo"), ("prompt", .str "hi")]] 0 =
      (["<Agent name=\"echo\">\n", "I say <Answer> hi there </Answer> ok", "</Agent>\n"] ++
         (dispatchAll oW 0 [("echo", cardEcho)] [] 1).1,
       (⟨.str "echo", .str "hi", "hi there"⟩ : AnswerRec) ::
         (dispatchAll oW 0 [("echo", cardEcho)] [] 1).2.1,
       (dispatchAll oW 0 [("echo", cardEcho)] [] 1).2.2) ∧
    ((dispatchAll oW 0 [("echo", cardEcho)]
        [.obj [("name", .str "echo"), ("prompt", .str "hi")]] 0).2.2 = none →
      runRounds oW (some ["u"]) 3 0 [] =
        ⟨(runRound oW (some ["u"]) 0).out ++
           (runRounds oW (some ["u"]) 2 1
             ([] ++ (dispatchAll oW 0 [("echo", cardEcho)]
               [.obj [("name", .str "echo"), ("prompt", .str "hi")]] 0).2.1)).output,
         (runRounds oW (some ["u"]) 2 1
           ([] ++ (dispatchAll oW 0 [("echo", cardEcho)]
             [.obj [("name", .str "echo"), ("prompt", .str "hi")]] 0).2.1)).answers,
         (runRounds oW (some ["u"]) 2 1
           ([] ++ (dispatchAll oW 0 [("echo", cardEcho)]
             [.obj [("name", .str "echo"), ("prompt", .str "hi")]] 0).2.1)).err,
         (runRounds oW (some ["u"]) 2 1
           ([] ++ (dispatchAll oW 0 [("echo", cardEcho)]
             [.obj [("name", .str "echo"), ("prompt", .str "hi")]] 0).2.1)).rounds + 1⟩) :=
  c6_round_ordering oW (some ["u"]) [("echo", cardEcho)] "agents"
    (.arr [.obj [("name", .str "echo"), ("prompt", .str "hi")]])
    (.obj [("name", .str "echo"), ("prompt", .str "hi")])
    [.obj [("name", .str "echo"), ("prompt", .str "hi")]] []
    ["<Agent name=\"echo\">\n", "I say <Answer> hi there </Answer> ok", "</Agent>\n"]
    ⟨.str "echo", .str "hi", "hi there"⟩ 0 0 2 []
    rfl rfl rfl rfl rfl rfl

theorem runRounds_rounds_le (orc : Oracle) (urls : Option (List String)) :
    ∀ n r answers, (runRounds orc urls n r answers).rounds ≤ n := by
  intro n
  induction n with
  | zero => intro r answers; exact Nat.le_refl 0
  | succ n ih =>
    intro r answers
    simp only [runRounds]
    cases (runRound orc urls r).status with
    | stop => exact Nat.succ_le_succ (Nat.zero_le n)
    | failed e => exact Nat.succ_le_succ (Nat.zero_le n)
    | next => exact Nat.succ_le_succ (ih (r + 1) _)

theorem dispatchOne_congr (o1 o2 : Oracle) (r : Nat)
    (h : o1.agentEvents r = o2.agentEvents r) (i : Nat)
    (registry : List (String × AgentCard)) (agent : Json) :
    dispatchOne o1 r i registry agent = dispatchOne o2 r i registry agent := by
  unfold dispatchOne
  rw [h]

theorem dispatchAll_congr (o1 o2 : Oracle) (r : Nat)
    (h : o1.agentEvents r = o2.agentEvents r)
    (registry : List (String × AgentCard)) :
    ∀ sels i, dispatchAll o1 r registry sels i = dispatchAll o2 r registry sels i := by
  intro sels
  induction sels with
  | nil => intro i; rfl
  | cons a rest ih =>
    intro i
    simp only [dispatchAll, dispatchOne_congr o1 o2 r h i registry a, ih (i + 1)]

theorem runRound_congr (o1 o2 : Oracle) (urls : Option (List String)) (r : Nat)
    (hres : o1.resolve r = o2.resolve r)
    (hren : o1.render = o2.render)
    (hdec : o1.decideStream r = o2.decideStream r)
    (hev : o1.agentEvents r = o2.agentEvents r) :
    runRound o1 urls r = runRound o2 urls r := by
  have hda : dispatchAll o1 r = dispatchAll o2 r :=
    funext fun registry => funext fun sels => funext fun i =>
      dispatchAll_congr o1 o2 r hev registry sels i
  unfold runRound
  rw [hres, hren, hdec, hda]

theorem runRounds_congr (o1 o2 : Oracle) (urls : Option (List String)) (m : Nat)
    (h : Oracle.agreeBelow o1 o2 m) :
    ∀ n r answers, r + n ≤ m →
      runRounds o1 urls n r answers = runRounds o2 urls n r answers := by
  intro n
  induction n with
  | zero => intro r answers _; rfl
  | succ n ih =>
    intro r answers hrm
    obtain ⟨hren, hall⟩ := h
    obtain ⟨hres, hdec, hev⟩ := hall r (by omega)
    have hro := runRound_congr o1 o2 urls r hres hren hdec hev
    simp only [runRounds, hro,
      ih (r + 1) (answers ++ (runRound o2 urls r).recs) (by omega)]

/-- C1: the loop never runs more than 3 rounds, and its entire
observable behaviour is already determined by the collaborators'
behaviour on rounds 0, 1 and 2: whatever further selections or streams
the collaborators would produce from round 3 on cannot change the run,
which terminates with no further output. -/
theorem c1_round_cap (o1 o2 : Oracle) (urls : Option (List String))
    (h : Oracle.agreeBelow o1 o2 3) :
    (stream o1 urls).rounds ≤ 3 ∧ stream o1 urls = stream o2 urls :=
  ⟨runRounds_rounds_le o1 urls 3 0 [],
   runRounds_congr o1 o2 urls 3 h 3 0 [] (Nat.le_refl 3)⟩

/-- A run that selects `echo` in every round, so all 3 rounds dispatch. -/
def oBusy : Oracle where
  resolve := fun _ _ => .ok cardEcho
  render := fun _ => "agents"
  decideStream := fun _ =>
    ⟨["```json\n[\x7b\"name\": \"echo\", \"prompt\": \"go\"\x7d]\n```"], none⟩
  agentEvents := fun _ _ _ _ => ⟨[.success (.statusUpdate (some ⟨[.text "ok"]⟩))], none⟩

/-- Same collaborators as `oBusy` on rounds 0-2 but different from
round 3 on. -/
def oBusyAlt : Oracle where
  resolve := oBusy.resolve
  render := oBusy.render
  decideStream := fun r => if r < 3 then oBusy.decideStream r else ⟨["EXTRA"], none⟩
  agentEvents := oBusy.agentEvents

theorem c1_witness :
    Oracle.agreeBelow oBusy oBusyAlt 3 ∧
    ((stream oBusy (some ["u"])).rounds ≤ 3 ∧
      stream oBusy (some ["u"]) = stream oBusyAlt (some ["u"])) := by
  have h : Oracle.agreeBelow oBusy oBusyAlt 3 :=
    ⟨rfl, fun r hr => ⟨rfl, by simp only [oBusy, oBusyAlt, if_pos hr], rfl⟩⟩
  exact ⟨h, c1_round_cap oBusy oBusyAlt (some ["u"]) h⟩
